import Mathlib

/-!
Shallow embedding of the crypto ingestion service:
a CoinMarketCap listings client (src/utils/coin_market.py),
a PostgreSQL connection-pool manager (src/utils/posgres_pool.py),
and the ingestion pipeline / job orchestrator (src/script.py).

Python dictionaries holding listing entries are embedded as structures of
optional fields (a missing key is `none`); `dict.get` with a `{}` default on
the nested `quote.USD` object collapses to those optional fields.  Machine
side effects that the claims talk about (pool checkout counts, batch calls
issued, transaction commit/rollback, the job's step order) are made explicit
as returned data.
-/

namespace Ttcs

/-! ### Ingestion pipeline data model (src/script.py) -/

/-- One raw listing entry of the API payload, as read by
`insert_crypto_data`: `item.get("name")`, `item.get("symbol")`,
`item.get("cmc_rank")` and the fields of `item.get("quote", {}).get("USD", {})`.
A key that is absent (or whose enclosing object is absent) is `none`. -/
structure Listing where
  name : Option String
  symbol : Option String
  cmc_rank : Option Int
  price : Option Rat
  volume_24h : Option Rat
  market_cap : Option Rat
  last_updated : Option String
  deriving DecidableEq, Repr

/-- One row of the `cryptocurrency_data` table as produced by the insert
statement (the `id` and `created_at` columns are server-assigned and not
part of the inserted tuple). -/
structure CryptoRow where
  name : String
  symbol : String
  rank : Option Int
  price : Rat
  volume24h : Option Rat
  marketCap : Option Rat
  lastUpdated : String
  deriving DecidableEq, Repr

/-- Python truthiness of an optional string, as used by
`all([name, symbol, price, last_updated_str])`: `None` and `""` are falsy. -/
def truthyStr : Option String → Bool
  | none => false
  | some s => decide (s ≠ "")

/-- Python truthiness of an optional number: `None`, `0` and `0.0` are falsy. -/
def truthyRat : Option Rat → Bool
  | none => false
  | some x => decide (x ≠ 0)

/-- Embedding of `last_updated_str.replace('T', ' ').replace('Z', '')` at the
character-list level: a single-character `str.replace` with a one-character
replacement is a pointwise map, and a single-character `str.replace` with an
empty replacement is a deletion filter. -/
def normalizeTsChars (l : List Char) : List Char :=
  (l.map (fun c => if c = 'T' then ' ' else c)).filter (fun c => decide (c ≠ 'Z'))

/-- String form of the timestamp normalization applied to every inserted
record's `last_updated`. -/
def stringNormalizeTs (s : String) : String :=
  ⟨normalizeTsChars s.data⟩

/-- One iteration of the loop body of `insert_crypto_data`: extract the
fields, test `all([name, symbol, price, last_updated_str])`, and either build
the tuple appended to `data_to_insert` (with the normalized timestamp) or
skip the entry (`none`).  The loop body is total on typed payloads, so the
`try/except` around it absorbs nothing here. -/
def processItem (it : Listing) : Option CryptoRow :=
  if truthyStr it.name && truthyStr it.symbol && truthyRat it.price &&
      truthyStr it.last_updated then
    some { name := it.name.getD ""
           symbol := it.symbol.getD ""
           rank := it.cmc_rank
           price := it.price.getD 0
           volume24h := it.volume_24h
           marketCap := it.market_cap
           lastUpdated := stringNormalizeTs (it.last_updated.getD "") }
  else
    none

/-- The `data_to_insert` list built by the loop of `insert_crypto_data`,
in payload order. -/
def validRecords (payload : List Listing) : List CryptoRow :=
  payload.filterMap processItem

/-! ### Insert statement semantics (the SQL text in src/script.py) -/

/-- The dedup key of the insert statement: `ON CONFLICT (name, symbol,
last_updated)`, matching the table's `UNIQUE (name, symbol, last_updated)`. -/
def rowKey (r : CryptoRow) : String × String × String :=
  (r.name, r.symbol, r.lastUpdated)

/-- Whether some persisted row already carries the given dedup key. -/
def keyPresent (db : List CryptoRow) (k : String × String × String) : Bool :=
  db.any (fun r => decide (rowKey r = k))

/-- Effect of executing the `INSERT ... ON CONFLICT (name, symbol,
last_updated) DO NOTHING` statement for one parameter tuple: append the row
unless a row with the same key exists, in which case do nothing (the existing
row is never updated). -/
def insertRow (db : List CryptoRow) (r : CryptoRow) : List CryptoRow :=
  if keyPresent db (rowKey r) then db else db ++ [r]

/-- Effect of `execute_batch` running the insert statement once per tuple,
in order, on one connection (later tuples see rows inserted by earlier ones). -/
def runBatchInsert (db : List CryptoRow) (rs : List CryptoRow) : List CryptoRow :=
  rs.foldl insertRow db

/-- Observable outcome of one `insert_crypto_data` call on the success path:
the resulting table contents, the list of `execute_batch` calls issued (each
carrying its parameter list), and the returned `records_inserted` count. -/
structure InsertOutcome where
  db : List CryptoRow
  batchCalls : List (List CryptoRow)
  recordsInserted : Nat
  deriving DecidableEq, Repr

/-- `insert_crypto_data` (src/script.py lines 37-78): build `data_to_insert`,
then `if data_to_insert:` issue a single `execute_batch` call with the whole
list and return its length, else issue no call and return 0. -/
def insert_crypto_data (db : List CryptoRow) (payload : List Listing) :
    InsertOutcome :=
  let data_to_insert := validRecords payload
  if data_to_insert.isEmpty then
    { db := db, batchCalls := [], recordsInserted := 0 }
  else
    { db := runBatchInsert db data_to_insert
      batchCalls := [data_to_insert]
      recordsInserted := data_to_insert.length }

/-! ### Connection pool manager (src/utils/posgres_pool.py): checkout tracking -/

/-- Exceptions that cross the manager's boundary: `ConnectionError` raised by
`get_connection`, `DatabaseError` raised by `execute_query`/`execute_batch`. -/
inductive PgExn where
  | connectionError
  | databaseError
  deriving DecidableEq, Repr

/-- Pool bookkeeping: connections sitting free in the pool and connections
currently checked out (taken by `getconn` and not yet given back by
`putconn`). -/
structure PoolState where
  available : Nat
  inUse : Nat
  deriving DecidableEq, Repr

/-- Which underlying psycopg2 call, if any, raises during one
`execute_query`/`execute_batch` call: `pool.getconn()`, `connection.cursor()`,
or a `cursor.execute`/`commit` inside the statement phase. -/
inductive QueryFailure where
  | noFail
  | getconnFail
  | cursorFail
  | statementFail
  deriving DecidableEq, Repr

/-- `get_connection` (lines 56-69): `getconn()` checks a connection out of the
pool; `connection.cursor()` may then raise.  Both `psycopg2.Error` cases are
re-raised as `ConnectionError`.  When `cursor()` raises, the connection has
already left the pool, and the raising call returns no handle to it. -/
def get_connection (fm : QueryFailure) (s : PoolState) :
    PoolState × Option PgExn :=
  match fm with
  | .getconnFail => (s, some .connectionError)
  | .cursorFail =>
      ({ available := s.available - 1, inUse := s.inUse + 1 }, some .connectionError)
  | _ => ({ available := s.available - 1, inUse := s.inUse + 1 }, none)

/-- `release_connection` (lines 71-76): `putconn` returns the connection to
the pool. -/
def release_connection (s : PoolState) : PoolState :=
  { available := s.available + 1, inUse := s.inUse - 1 }

/-- Pool state and raised exception after one manager call returns. -/
structure CallOutcome where
  state : PoolState
  raised : Option PgExn
  deriving DecidableEq, Repr

/-- `execute_query` (lines 78-112), pool effects only.  The local variable
`connection` starts as `None`; the tuple assignment
`connection, cursor = self.get_connection()` only happens when
`get_connection` returns, so when it raises, the `finally` block sees
`connection = None` and releases nothing.  A `psycopg2.Error` in the
statement phase is turned into `DatabaseError` after rollback, and the
`finally` block releases the connection. -/
def execute_query_conn (fm : QueryFailure) (s : PoolState) : CallOutcome :=
  match get_connection fm s with
  | (s1, some e) => { state := s1, raised := some e }
  | (s1, none) =>
      match fm with
      | .statementFail => { state := release_connection s1, raised := some .databaseError }
      | _ => { state := release_connection s1, raised := none }

/-- `execute_batch` (lines 114-132), pool effects only: same
acquire/except/finally skeleton as `execute_query`, with the loop of
`cursor.execute` calls and the single `commit` as the statement phase. -/
def execute_batch_conn (fm : QueryFailure) (s : PoolState) : CallOutcome :=
  match get_connection fm s with
  | (s1, some e) => { state := s1, raised := some e }
  | (s1, none) =>
      match fm with
      | .statementFail => { state := release_connection s1, raised := some .databaseError }
      | _ => { state := release_connection s1, raised := none }

/-! ### Transaction semantics of execute_batch -/

/-- One pooled connection's transactional view: the durably committed state
and the working state the cursor's statements act on. -/
structure Conn (β : Type) where
  committed : β
  working : β
  deriving DecidableEq, Repr

/-- `connection.commit()`: make the working state durable. -/
def connCommit {β : Type} (c : Conn β) : Conn β :=
  { committed := c.working, working := c.working }

/-- `connection.rollback()`: discard the uncommitted work. -/
def connRollback {β : Type} (c : Conn β) : Conn β :=
  { committed := c.committed, working := c.committed }

/-- The `for params in params_list: cursor.execute(query, params)` loop:
run the statement once per parameter, in order, stopping at the first
`psycopg2.Error`.  The statement's semantics is a parameter of the model
because `execute_batch` is generic in the query text. -/
def runStatements {α β : Type} (applyStmt : β → α → Except Unit β) :
    β → List α → Except Unit β
  | db, [] => .ok db
  | db, p :: ps =>
      match applyStmt db p with
      | .ok db2 => runStatements applyStmt db2 ps
      | .error e => .error e

/-- Transaction-level outcome of one `execute_batch` call. -/
structure BatchOutcome (β : Type) where
  conn : Conn β
  raisedDbError : Bool
  released : Bool
  deriving DecidableEq, Repr

/-- `execute_batch` (lines 114-132), transaction effects: run every statement
on one connection, then `commit()` once; on the first `psycopg2.Error`,
`rollback()` and raise `DatabaseError`; the `finally` block releases the
connection on both paths. -/
def execute_batch_tx {α β : Type} (applyStmt : β → α → Except Unit β)
    (c : Conn β) (ps : List α) : BatchOutcome β :=
  match runStatements applyStmt c.working ps with
  | .ok w => { conn := connCommit { c with working := w }, raisedDbError := false, released := true }
  | .error _ => { conn := connRollback c, raisedDbError := true, released := true }

/-! ### Remote listings client (src/utils/coin_market.py) -/

/-- Outcome of the one `requests.get` + `raise_for_status` + `json()` chain
inside `_make_request`: either a parsed body, or a transport-level failure
(timeout, DNS failure, non-2xx status raising) carrying its message.  All of
the latter are `requests.exceptions.RequestException`s. -/
inductive HttpOutcome (γ : Type) where
  | success (body : γ)
  | transportError (msg : String)
  deriving DecidableEq, Repr

/-- What `_make_request` hands back to its caller: the parsed payload, or the
error-shaped dictionary it builds in the `except` arm. -/
inductive ApiResult (γ : Type) where
  | payload (body : γ)
  | errorDict (msg : String)
  deriving DecidableEq, Repr

/-- `_make_request` (lines 28-34): the `try` returns the parsed body; the
`except requests.exceptions.RequestException` arm returns
a dictionary with the single key `error` holding `str(e)`.  The `Except`
result type records whether an exception escapes the method. -/
def make_request {γ : Type} (outcome : HttpOutcome γ) :
    Except String (ApiResult γ) :=
  match outcome with
  | .success body => Except.ok (.payload body)
  | .transportError msg => Except.ok (.errorDict msg)

/-- `get_latest_listings` (lines 17-26): builds the endpoint and parameters
and forwards to `_make_request`; it adds no handling of its own. -/
def get_latest_listings {γ : Type} (outcome : HttpOutcome γ) :
    Except String (ApiResult γ) :=
  make_request outcome

/-! ### Job orchestrator (src/script.py, run_data_collection_job) -/

/-- The three orchestrated steps the spec talks about: the
`CREATE TABLE IF NOT EXISTS` statement, the client fetch, and the pipeline
insert. -/
inductive JobEvent where
  | tableEnsure
  | fetch
  | insert
  deriving DecidableEq, Repr

/-- A job run's observable outcome: the order in which the steps executed,
the HTTP-equivalent status, and the resulting table contents. -/
structure JobOutcome where
  events : List JobEvent
  status : Nat
  db : List CryptoRow
  deriving DecidableEq, Repr

/-- `run_data_collection_job` (lines 80-148), success-path sequencing: inside
the manager block it first executes the `CREATE TABLE IF NOT EXISTS`
statement (line 99), then calls `client.get_latest_listings()` (line 116);
if the response carries an `error` key it returns status 500, otherwise it
calls `insert_crypto_data` (line 123) and returns status 200. -/
def run_data_collection_job (db : List CryptoRow)
    (fetchOutcome : HttpOutcome (List Listing)) : JobOutcome :=
  let ev1 := [JobEvent.tableEnsure]
  match get_latest_listings fetchOutcome with
  | Except.ok (ApiResult.errorDict _) =>
      { events := ev1 ++ [JobEvent.fetch], status := 500, db := db }
  | Except.ok (ApiResult.payload payload) =>
      let out := insert_crypto_data db payload
      { events := ev1 ++ [JobEvent.fetch, JobEvent.insert], status := 200, db := out.db }
  | Except.error _ =>
      { events := ev1 ++ [JobEvent.fetch], status := 500, db := db }

/-! ### execute_query read/write decision (src/utils/posgres_pool.py line 93) -/

/-- Characters stripped by Python's `str.strip()` (ASCII whitespace). -/
def isPySpace (c : Char) : Bool :=
  c = ' ' || c = '\t' || c = '\n' || c = '\r' || c = Char.ofNat 11 || c = Char.ofNat 12

/-- Python `query.strip()`: drop whitespace from both ends. -/
def pyStrip (s : String) : String :=
  ⟨((s.data.dropWhile isPySpace).reverse.dropWhile isPySpace).reverse⟩

/-- Python `str.upper()` on the ASCII query text. -/
def pyUpper (s : String) : String :=
  ⟨s.data.map Char.toUpper⟩

/-- `query.strip().upper().startswith("SELECT")`: the read/write decision of
`execute_query`, embedded as a six-character comparison. -/
def startsWithSelect (q : String) : Bool :=
  decide ((pyUpper (pyStrip q)).data.take 6 = ['S', 'E', 'L', 'E', 'C', 'T'])

/-- What `cursor.fetchone()` / `cursor.fetchall()` would deliver for the
current statement. -/
structure CursorData where
  fetchedOne : Option (List String)
  fetchedAll : List (List String)
  deriving DecidableEq, Repr

/-- A row set handed back by `execute_query` when it returns rows. -/
inductive FetchResult where
  | one (row : Option (List String))
  | all (rows : List (List String))
  deriving DecidableEq, Repr

/-- Result-value logic of `execute_query` (lines 93-104): only a query whose
stripped upper-cased text starts with `SELECT` consults the fetch flags
(`fetchone` first, then `fetchall`); every other statement is committed and
the method returns `None`. -/
def execute_query_result (q : String) (fetchone fetchall : Bool)
    (cur : CursorData) : Option FetchResult :=
  if startsWithSelect q then
    if fetchone then some (.one cur.fetchedOne)
    else if fetchall then some (.all cur.fetchedAll)
    else none
  else
    none

/-! ### Lemmas about the conflict-ignore insert -/

theorem keyPresent_iff (db : List CryptoRow) (k : String × String × String) :
    keyPresent db k = true ↔ ∃ r ∈ db, rowKey r = k := by
  simp [keyPresent, List.any_eq_true]

theorem keyPresent_insertRow_mono (db : List CryptoRow) (r : CryptoRow)
    (k : String × String × String) (h : keyPresent db k = true) :
    keyPresent (insertRow db r) k = true := by
  unfold insertRow
  split
  · exact h
  · rw [keyPresent_iff] at h ⊢
    obtain ⟨x, hx, hk⟩ := h
    exact ⟨x, List.mem_append_left _ hx, hk⟩

theorem keyPresent_insertRow_self (db : List CryptoRow) (r : CryptoRow) :
    keyPresent (insertRow db r) (rowKey r) = true := by
  unfold insertRow
  split
  · assumption
  · rw [keyPresent_iff]
    exact ⟨r, List.mem_append_right _ (List.mem_singleton_self r), rfl⟩

theorem keyPresent_runBatchInsert_mono (rs : List CryptoRow)
    (db : List CryptoRow) (k : String × String × String)
    (h : keyPresent db k = true) :
    keyPresent (runBatchInsert db rs) k = true := by
  induction rs generalizing db with
  | nil => exact h
  | cons a tl ih => exact ih (insertRow db a) (keyPresent_insertRow_mono db a k h)

theorem keyPresent_runBatchInsert_mem (rs : List CryptoRow)
    (db : List CryptoRow) (r : CryptoRow) (h : r ∈ rs) :
    keyPresent (runBatchInsert db rs) (rowKey r) = true := by
  induction rs generalizing db with
  | nil => cases h
  | cons a tl ih =>
    rcases List.mem_cons.mp h with h1 | h2
    · subst h1
      exact keyPresent_runBatchInsert_mono tl (insertRow db r) (rowKey r)
        (keyPresent_insertRow_self db r)
    · exact ih (insertRow db a) h2

theorem runBatchInsert_noop (rs : List CryptoRow) (db : List CryptoRow)
    (h : ∀ r ∈ rs, keyPresent db (rowKey r) = true) :
    runBatchInsert db rs = db := by
  induction rs with
  | nil => rfl
  | cons a tl ih =>
    have ha : insertRow db a = db := by
      unfold insertRow
      rw [h a (List.mem_cons_self a tl)]
      simp
    show runBatchInsert (insertRow db a) tl = db
    rw [ha]
    exact ih (fun r hr => h r (List.mem_cons_of_mem a hr))

theorem runBatchInsert_append_only (rs : List CryptoRow) (db : List CryptoRow) :
    ∃ t, runBatchInsert db rs = db ++ t := by
  induction rs generalizing db with
  | nil => exact ⟨[], by simp [runBatchInsert]⟩
  | cons a tl ih =>
    obtain ⟨t1, ht1⟩ := ih (insertRow db a)
    by_cases hk : keyPresent db (rowKey a) = true
    · refine ⟨t1, ?_⟩
      show runBatchInsert (insertRow db a) tl = db ++ t1
      rw [ht1]
      unfold insertRow
      rw [if_pos hk]
    · refine ⟨a :: t1, ?_⟩
      show runBatchInsert (insertRow db a) tl = db ++ a :: t1
      rw [ht1]
      unfold insertRow
      rw [if_neg hk]
      simp

/-- Claim C3: running the ingestion twice with an identical payload leaves
exactly the same persisted rows (hence the same row count) as running it
once — the `ON CONFLICT (name, symbol, last_updated) DO NOTHING` statement
ignores duplicate triples — and existing rows are never updated (the table
only ever grows by appending new rows). -/
theorem C3_ingest_idempotent (db : List CryptoRow) (p : List Listing) :
    (insert_crypto_data (insert_crypto_data db p).db p).db =
      (insert_crypto_data db p).db ∧
    ∃ t, (insert_crypto_data db p).db = db ++ t := by
  unfold insert_crypto_data
  by_cases he : (validRecords p).isEmpty
  · simp [he]
  · simp only [he, Bool.false_eq_true, if_false]
    constructor
    · exact runBatchInsert_noop (validRecords p) (runBatchInsert db (validRecords p))
        (fun r hr => keyPresent_runBatchInsert_mem (validRecords p) db r hr)
    · exact runBatchInsert_append_only (validRecords p) db

/-! ### Pool checkout theorems -/

/-- On every path other than the cursor-creation failure, both manager calls
restore the pool state: the connection taken out is released exactly once. -/
theorem manager_releases_when_cursor_ok (fm : QueryFailure) (s : PoolState)
    (h1 : 1 ≤ s.available) (h2 : fm ≠ QueryFailure.cursorFail) :
    (execute_query_conn fm s).state = s ∧ (execute_batch_conn fm s).state = s := by
  cases fm with
  | cursorFail => exact absurd rfl h2
  | getconnFail => exact ⟨rfl, rfl⟩
  | noFail =>
    constructor <;>
      simp [execute_query_conn, execute_batch_conn, get_connection,
        release_connection, Nat.sub_add_cancel h1]
  | statementFail =>
    constructor <;>
      simp [execute_query_conn, execute_batch_conn, get_connection,
        release_connection, Nat.sub_add_cancel h1]

/-- Claim C1: the release-exactly-once invariant fails on the path the claim
itself names.  Starting from a pool with one free connection and none checked
out, a call to `execute_query` (or `execute_batch`) in which `getconn()`
succeeds but `connection.cursor()` raises ends with one connection still
checked out: `get_connection` re-raises before the caller's local
`connection` is bound, so the `finally` block releases nothing and the
connection never returns to the pool. -/
theorem C1_cursor_leak :
    (execute_query_conn QueryFailure.cursorFail ⟨1, 0⟩).state = ⟨0, 1⟩ ∧
    (execute_query_conn QueryFailure.cursorFail ⟨1, 0⟩).raised =
      some PgExn.connectionError ∧
    (execute_batch_conn QueryFailure.cursorFail ⟨1, 0⟩).state = ⟨0, 1⟩ ∧
    (execute_batch_conn QueryFailure.cursorFail ⟨1, 0⟩).raised =
      some PgExn.connectionError := by
  refine ⟨rfl, rfl, rfl, rfl⟩

/-! ### Batch transaction theorems -/

/-- Claim C2: `execute_batch` runs the whole parameter list as one
transaction on one connection with a single final commit; if executing any
parameter tuple raises, the entire batch is rolled back — the committed
database state is exactly what it was before the call, so none of the rows
are persisted — a `DatabaseError` is raised, and the connection is still
released. -/
theorem C2_batch_atomic {α β : Type} (applyStmt : β → α → Except Unit β)
    (c : Conn β) (ps : List α)
    (h : (runStatements applyStmt c.working ps).isOk = false) :
    (execute_batch_tx applyStmt c ps).conn.committed = c.committed ∧
    (execute_batch_tx applyStmt c ps).conn.working = c.committed ∧
    (execute_batch_tx applyStmt c ps).raisedDbError = true ∧
    (execute_batch_tx applyStmt c ps).released = true := by
  unfold execute_batch_tx
  cases hr : runStatements applyStmt c.working ps with
  | ok w => rw [hr] at h; simp [Except.isOk, Except.toBool] at h
  | error e => exact ⟨rfl, rfl, rfl, rfl⟩

/-- A statement semantics for the witness: inserting a number fails on the
value 5 (a constraint violation on the 5th tuple), otherwise appends. -/
def appendUnlessFive (db : List Nat) (n : Nat) : Except Unit (List Nat) :=
  if n = 5 then .error () else .ok (db ++ [n])

/-- Witness for C2: a batch of ten tuples whose 5th raises leaves the
committed state empty, raises `DatabaseError`, and releases the
connection. -/
theorem C2_batch_atomic_witness :
    (runStatements appendUnlessFive (Conn.working ⟨[], []⟩)
        [1, 2, 3, 4, 5, 6, 7, 8, 9, 10]).isOk = false ∧
    (execute_batch_tx appendUnlessFive ⟨[], []⟩
        [1, 2, 3, 4, 5, 6, 7, 8, 9, 10]).conn.committed = ([] : List Nat) ∧
    (execute_batch_tx appendUnlessFive ⟨[], []⟩
        [1, 2, 3, 4, 5, 6, 7, 8, 9, 10]).raisedDbError = true := by
  have h : (runStatements appendUnlessFive (Conn.working ⟨[], []⟩)
      [1, 2, 3, 4, 5, 6, 7, 8, 9, 10]).isOk = false := by decide
  have hm := C2_batch_atomic appendUnlessFive ⟨[], []⟩
    [1, 2, 3, 4, 5, 6, 7, 8, 9, 10] h
  exact ⟨h, hm.1, hm.2.2.1⟩

/-! ### Orchestrator step-order theorems -/

/-- Counterexample to claim C4: on a successful run the job's step order is
not fetch-first.  With an empty table and a successful fetch of an empty
payload, the executed order is table-ensure, then fetch, then insert — not
the claimed fetch, table-ensure, insert. -/
theorem C4_counterexample :
    (run_data_collection_job [] (HttpOutcome.success [])).events ≠
      [JobEvent.fetch, JobEvent.tableEnsure, JobEvent.insert] := by
  decide

/-- Claim C4 (amended): on every job run the orchestrator executes the
table-ensure statement first, then the client fetch, and — whenever the fetch
returned a payload rather than an error — the pipeline insert last:
TABLE_ENSURE → FETCHING → INSERTING. -/
theorem C4_order (db : List CryptoRow) (o : HttpOutcome (List Listing)) :
    (run_data_collection_job db o).events.take 2 =
      [JobEvent.tableEnsure, JobEvent.fetch] ∧
    (∀ payload, o = HttpOutcome.success payload →
      (run_data_collection_job db o).events =
        [JobEvent.tableEnsure, JobEvent.fetch, JobEvent.insert]) := by
  cases o with
  | success payload =>
    refine ⟨rfl, ?_⟩
    intro p hp
    rfl
  | transportError msg =>
    refine ⟨rfl, ?_⟩
    intro p hp
    cases hp

/-- Witness for the amended C4: a successful run over an empty table executes
exactly table-ensure, fetch, insert, in that order. -/
theorem C4_order_witness :
    (run_data_collection_job [] (HttpOutcome.success [])).events =
      [JobEvent.tableEnsure, JobEvent.fetch, JobEvent.insert] :=
  (C4_order [] (HttpOutcome.success [])).2 [] rfl

/-! ### Timestamp normalization theorems -/

theorem normalizeTsChars_append (l1 l2 : List Char) :
    normalizeTsChars (l1 ++ l2) = normalizeTsChars l1 ++ normalizeTsChars l2 := by
  unfold normalizeTsChars
  rw [List.map_append, List.filter_append]

theorem normalizeTsChars_id (l : List Char) (h : ∀ c ∈ l, c ≠ 'T' ∧ c ≠ 'Z') :
    normalizeTsChars l = l := by
  induction l with
  | nil => rfl
  | cons a tl ih =>
    have h1 := h a (List.mem_cons_self a tl)
    have h2 := ih (fun c hc => h c (List.mem_cons_of_mem a hc))
    show ((a :: tl).map (fun c => if c = 'T' then ' ' else c)).filter
        (fun c => decide (c ≠ 'Z')) = a :: tl
    rw [List.map_cons]
    have ha2 : (if a = 'T' then ' ' else a) = a := if_neg h1.1
    rw [ha2, List.filter_cons]
    have hz : (decide (a ≠ 'Z')) = true := decide_eq_true h1.2
    rw [hz]
    simp only [if_true]
    exact congrArg (List.cons a) h2

theorem normalizeTsChars_shape (a b : List Char)
    (ha : ∀ c ∈ a, c ≠ 'T' ∧ c ≠ 'Z') (hb : ∀ c ∈ b, c ≠ 'T' ∧ c ≠ 'Z') :
    normalizeTsChars (a ++ 'T' :: (b ++ ['Z'])) = a ++ ' ' :: b := by
  show normalizeTsChars (a ++ (['T'] ++ (b ++ ['Z']))) = a ++ ' ' :: b
  rw [normalizeTsChars_append, normalizeTsChars_append, normalizeTsChars_append]
  rw [normalizeTsChars_id a ha, normalizeTsChars_id b hb]
  have hT : normalizeTsChars ['T'] = [' '] := rfl
  have hZ : normalizeTsChars ['Z'] = [] := rfl
  rw [hT, hZ]
  simp

/-- Claim C5: every record added to the insert batch stores, as
`last_updated`, the source string passed through the
`.replace('T', ' ').replace('Z', '')` normalization; and on a string in the
source format (a date part and a time part with a single `T` separator and a
trailing `Z`), that normalization replaces the `T` by a space and drops the
`Z`. -/
theorem C5_timestamp_normalization :
    (∀ (it : Listing) (r : CryptoRow), processItem it = some r →
      r.lastUpdated = stringNormalizeTs (it.last_updated.getD "")) ∧
    (∀ a b : List Char, (∀ c ∈ a, c ≠ 'T' ∧ c ≠ 'Z') →
      (∀ c ∈ b, c ≠ 'T' ∧ c ≠ 'Z') →
      stringNormalizeTs ⟨a ++ 'T' :: (b ++ ['Z'])⟩ = ⟨a ++ ' ' :: b⟩) := by
  constructor
  · intro it r h
    unfold processItem at h
    split at h
    · cases h
      rfl
    · cases h
  · intro a b ha hb
    show (⟨normalizeTsChars (a ++ 'T' :: (b ++ ['Z']))⟩ : String) = ⟨a ++ ' ' :: b⟩
    rw [normalizeTsChars_shape a b ha hb]

/-- Witness for C5: the spec's concrete example. -/
theorem C5_witness :
    stringNormalizeTs "2024-01-15T10:30:00.000Z" = "2024-01-15 10:30:00.000" := by
  have h := C5_timestamp_normalization.2 "2024-01-15".data "10:30:00.000".data
    (by decide) (by decide)
  exact h

/-! ### Validation and batching theorems -/

theorem processItem_none_of_missing (it : Listing)
    (h : it.name = none ∨ it.symbol = none ∨ it.price = none ∨
      it.last_updated = none) :
    processItem it = none := by
  unfold processItem
  rcases h with h | h | h | h <;> simp [h, truthyStr, truthyRat]

/-- Claim C6: a listing entry missing any of name, symbol, price, or
last_updated is excluded from the insert batch, and processing continues
with the remaining entries (the surrounding entries produce exactly the
records they would produce without it); the loop body is total, so the entry
never raises and never aborts the batch. -/
theorem C6_invalid_skipped (pre post : List Listing) (it : Listing)
    (h : it.name = none ∨ it.symbol = none ∨ it.price = none ∨
      it.last_updated = none) :
    validRecords (pre ++ it :: post) = validRecords (pre ++ post) := by
  unfold validRecords
  rw [List.filterMap_append, List.filterMap_append]
  congr 1
  rw [List.filterMap_cons, processItem_none_of_missing it h]

/-- Witness for C6: an entry with no price is dropped and the entry after it
is still processed. -/
theorem C6_witness :
    validRecords
      [{ name := some "Bitcoin", symbol := some "BTC", cmc_rank := some 1,
         price := none, volume_24h := none, market_cap := none,
         last_updated := some "2024-01-15T10:30:00.000Z" },
       { name := some "Ethereum", symbol := some "ETH", cmc_rank := some 2,
         price := some 2500, volume_24h := none, market_cap := none,
         last_updated := some "2024-01-15T10:30:00.000Z" }] =
    validRecords
      [{ name := some "Ethereum", symbol := some "ETH", cmc_rank := some 2,
         price := some 2500, volume_24h := none, market_cap := none,
         last_updated := some "2024-01-15T10:30:00.000Z" }] :=
  C6_invalid_skipped [] _ _ (Or.inr (Or.inr (Or.inl rfl)))

/-- Counterexample to claim C7: with a payload yielding no valid records the
code issues no `execute_batch` call at all (the `if data_to_insert:` guard),
not exactly one call with an empty list. -/
theorem C7_counterexample :
    (insert_crypto_data [] []).batchCalls.length ≠ 1 := by
  decide

/-- Claim C7 (amended): the ingestion collects all valid records into one
list and issues at most one `execute_batch` call; whenever at least one
valid record exists, it issues exactly one call carrying all of them, and
when the list of valid records is empty it issues no call at all.  The bulk
upsert is never split across several calls. -/
theorem C7_single_batch_call (db : List CryptoRow) (p : List Listing) :
    (insert_crypto_data db p).batchCalls.length ≤ 1 ∧
    ((validRecords p).isEmpty = false →
      (insert_crypto_data db p).batchCalls = [validRecords p]) ∧
    ((validRecords p).isEmpty = true →
      (insert_crypto_data db p).batchCalls = []) := by
  unfold insert_crypto_data
  cases he : (validRecords p).isEmpty <;> simp [he]

/-- Witness for the amended C7: one valid record yields exactly one batch
call carrying the whole record list. -/
theorem C7_witness :
    (insert_crypto_data []
      [{ name := some "Bitcoin", symbol := some "BTC", cmc_rank := some 1,
         price := some 50000, volume_24h := none, market_cap := none,
         last_updated := some "2024-01-15T10:30:00.000Z" }]).batchCalls =
    [validRecords
      [{ name := some "Bitcoin", symbol := some "BTC", cmc_rank := some 1,
         price := some 50000, volume_24h := none, market_cap := none,
         last_updated := some "2024-01-15T10:30:00.000Z" }]] :=
  (C7_single_batch_call [] _).2.1 (by decide)

/-- Claim C9: the required-field test is Python truthiness, not key
presence — a present price of 0 (or 0.0) and a present empty name or symbol
all cause the entry to be skipped — while absent rank, volume_24h, and
market_cap never cause a skip and are carried into the inserted tuple as
NULL (`none`). -/
theorem C9_truthiness :
    (∀ it : Listing, it.price = some 0 → processItem it = none) ∧
    (∀ it : Listing, it.name = some "" → processItem it = none) ∧
    (∀ it : Listing, it.symbol = some "" → processItem it = none) ∧
    (∀ (n s lu : String) (p : Rat), n ≠ "" → s ≠ "" → p ≠ 0 → lu ≠ "" →
      processItem { name := some n, symbol := some s, cmc_rank := none,
                    price := some p, volume_24h := none, market_cap := none,
                    last_updated := some lu } =
      some { name := n, symbol := s, rank := none, price := p,
             volume24h := none, marketCap := none,
             lastUpdated := stringNormalizeTs lu }) := by
  refine ⟨?_, ?_, ?_, ?_⟩
  · intro it h
    unfold processItem
    simp [h, truthyRat]
  · intro it h
    unfold processItem
    simp [h, truthyStr]
  · intro it h
    unfold processItem
    simp [h, truthyStr]
  · intro n s lu p hn hs hp hl
    unfold processItem
    simp [truthyStr, truthyRat, hn, hs, hp, hl]

/-- Witness for C9: a zero price is skipped although the key is present; a
nonzero price with absent optional fields is inserted with NULL rank, volume
and market cap. -/
theorem C9_witness :
    processItem { name := some "Bitcoin", symbol := some "BTC",
                  cmc_rank := none, price := some 0, volume_24h := none,
                  market_cap := none,
                  last_updated := some "2024-01-15T10:30:00.000Z" } = none ∧
    processItem { name := some "Bitcoin", symbol := some "BTC",
                  cmc_rank := none, price := some 1, volume_24h := none,
                  market_cap := none,
                  last_updated := some "2024-01-15T10:30:00.000Z" } =
      some { name := "Bitcoin", symbol := "BTC", rank := none, price := 1,
             volume24h := none, marketCap := none,
             lastUpdated := stringNormalizeTs "2024-01-15T10:30:00.000Z" } :=
  ⟨C9_truthiness.1 _ rfl,
   C9_truthiness.2.2.2 "Bitcoin" "BTC" "2024-01-15T10:30:00.000Z" 1
     (by decide) (by decide) (by decide) (by decide)⟩

/-! ### Client boundary theorems -/

/-- Claim C8: `_make_request` never lets an exception escape — it always
returns a value — and on every transport-level failure the returned value is
the error-shaped dictionary carrying the failure's message. -/
theorem C8_no_throw {γ : Type} (o : HttpOutcome γ) :
    (∃ r, make_request o = Except.ok r) ∧
    (∀ msg, o = HttpOutcome.transportError msg →
      make_request o = Except.ok (ApiResult.errorDict msg)) := by
  cases o with
  | success body =>
    refine ⟨⟨ApiResult.payload body, rfl⟩, ?_⟩
    intro msg h
    cases h
  | transportError msg =>
    refine ⟨⟨ApiResult.errorDict msg, rfl⟩, ?_⟩
    intro m h
    cases h
    rfl

/-- Witness for C8: a timeout becomes an error dictionary, not an
exception. -/
theorem C8_witness :
    make_request (γ := List Listing)
        (HttpOutcome.transportError "connection timed out") =
      Except.ok (ApiResult.errorDict "connection timed out") :=
  (C8_no_throw (HttpOutcome.transportError "connection timed out")).2 _ rfl

/-! ### Read/write decision theorems -/

/-- Claim C10: `execute_query` returns rows only when the stripped,
upper-cased query text starts with `SELECT`, with `fetchone` taking priority
over `fetchall`; every other statement — a `RETURNING` clause or a `WITH`
CTE included — returns `None` regardless of the fetch flags. -/
theorem C10_select_gate (q : String) (cur : CursorData) :
    (startsWithSelect q = false →
      ∀ f1 fa : Bool, execute_query_result q f1 fa cur = none) ∧
    (startsWithSelect q = true →
      (∀ fa : Bool, execute_query_result q true fa cur =
        some (FetchResult.one cur.fetchedOne)) ∧
      execute_query_result q false true cur =
        some (FetchResult.all cur.fetchedAll) ∧
      execute_query_result q false false cur = none) := by
  constructor
  · intro h f1 fa
    simp [execute_query_result, h]
  · intro h
    refine ⟨fun fa => ?_, ?_, ?_⟩ <;> simp [execute_query_result, h]

/-- Witness for C10: an `INSERT ... RETURNING` statement and a CTE starting
with `WITH` both return `None` even with the fetch flags set, while a
leading-whitespace lower-case `select` does return rows. -/
theorem C10_witness :
    execute_query_result
        "INSERT INTO cryptocurrency_data (name) VALUES (%s) RETURNING id"
        true true ⟨none, []⟩ = none ∧
    execute_query_result "  WITH t AS (SELECT 1) SELECT * FROM t" true true
        ⟨none, []⟩ = none ∧
    execute_query_result "  select 1" false true ⟨none, [["1"]]⟩ =
      some (FetchResult.all [["1"]]) :=
  ⟨(C10_select_gate _ _).1 (by decide) true true,
   (C10_select_gate _ _).1 (by decide) true true,
   ((C10_select_gate _ _).2 (by decide)).2.1⟩

end Ttcs
